import Mathlib

/-!
Verification of the `auditlog_tests/models.py` fixture file of
django-auditlog against its natural-language specification.

The source file declares Django data models (entity shapes), history
fields, and registration calls against an external audit engine.  The
entity declarations and registration calls below are translated directly
from `src/auditlog_tests/models.py`.  The audit engine itself
(`auditlog.registry`, `auditlog.models`) is not part of the provided
source, so its behaviour is modelled from the specification text; every
such definition carries a doc comment starting with `Modelled from the
spec:`.
-/

namespace AuditlogSpec

/-- Primary-key strategies that appear in the source models. -/
inductive PKType where
  | autoInt
  | char
  | uuid
deriving DecidableEq, Repr

/-- The declaration of an `AuditlogHistoryField`, from
`src/auditlog_tests/models.py`.  The two keyword arguments that the
source uses are `pk_indexable` (default `True`) and `delete_related`
(default `True`). -/
structure HistoryFieldDecl where
  pk_indexable : Bool
  delete_related : Bool
deriving DecidableEq, Repr

/-- `AuditlogHistoryField()` with all defaults. -/
def defaultHistory : HistoryFieldDecl := ⟨true, true⟩

/-- The declaration of one entity (Django model) of the source file:
its name, the name of its concrete entity (differs from `name` only for
proxy models), its primary-key strategy, its declared data fields in
source order, the verbose names declared for fields, its declared
many-to-many relation fields, and its history field if it has one. -/
structure EntityDecl where
  name : String
  concrete : String
  pk : PKType
  fields : List String
  verboseNames : List (String × String)
  m2mRelations : List String
  history : Option HistoryFieldDecl
deriving DecidableEq, Repr

/-- `SimpleModel` (models.py lines 12-23): text, boolean, integer,
datetime fields, auto integer pk, default history field. -/
def SimpleModel : EntityDecl :=
  ⟨"SimpleModel", "SimpleModel", PKType.autoInt,
   ["text", "boolean", "integer", "datetime"], [], [], some defaultHistory⟩

/-- `AltPrimaryKeyModel` (lines 26-38): explicit character primary key
`key`, history field with `pk_indexable=False`. -/
def AltPrimaryKeyModel : EntityDecl :=
  ⟨"AltPrimaryKeyModel", "AltPrimaryKeyModel", PKType.char,
   ["key", "text", "boolean", "integer", "datetime"], [], [],
   some ⟨false, true⟩⟩

/-- `UUIDPrimaryKeyModel` (lines 41-53): UUID primary key `id`,
history field with `pk_indexable=False`. -/
def UUIDPrimaryKeyModel : EntityDecl :=
  ⟨"UUIDPrimaryKeyModel", "UUIDPrimaryKeyModel", PKType.uuid,
   ["id", "text", "boolean", "integer", "datetime"], [], [],
   some ⟨false, true⟩⟩

/-- `ProxyModel` (lines 56-62): a proxy of `SimpleModel` with
`Meta.proxy = True`; it declares no fields and no table of its own, so
its fields and history field are those of `SimpleModel` and its concrete
entity is `SimpleModel`. -/
def ProxyModel : EntityDecl :=
  ⟨"ProxyModel", "SimpleModel", PKType.autoInt,
   ["text", "boolean", "integer", "datetime"], [], [], some defaultHistory⟩

/-- `RelatedModel` (lines 71-83): a foreign key and a one-to-one field
to `SimpleModel`, default history field. -/
def RelatedModel : EntityDecl :=
  ⟨"RelatedModel", "RelatedModel", PKType.autoInt,
   ["related", "one_to_one"], [], [], some defaultHistory⟩

/-- `ManyRelatedModel` (lines 86-98): two many-to-many relations
(`recursive` self-referential and `related` to `ManyRelatedOtherModel`),
default history field; it defines `get_additional_data`. -/
def ManyRelatedModel : EntityDecl :=
  ⟨"ManyRelatedModel", "ManyRelatedModel", PKType.autoInt,
   [], [], ["recursive", "related"], some defaultHistory⟩

/-- The auto-generated through entity of
`ManyRelatedModel.recursive` (registered at line 282); it is not
declared in the source file and has no history field. -/
def ManyRelatedModelRecursiveThrough : EntityDecl :=
  ⟨"ManyRelatedModel_recursive", "ManyRelatedModel_recursive", PKType.autoInt,
   ["from_manyrelatedmodel", "to_manyrelatedmodel"], [], [], none⟩

/-- `ManyRelatedOtherModel` (lines 101-106): only a history field. -/
def ManyRelatedOtherModel : EntityDecl :=
  ⟨"ManyRelatedOtherModel", "ManyRelatedOtherModel", PKType.autoInt,
   [], [], [], some defaultHistory⟩

/-- `SimpleIncludeModel` (lines 109-118): `label` and `text` fields. -/
def SimpleIncludeModel : EntityDecl :=
  ⟨"SimpleIncludeModel", "SimpleIncludeModel", PKType.autoInt,
   ["label", "text"], [], [], some defaultHistory⟩

/-- `SimpleExcludeModel` (lines 121-129): `label` and `text` fields. -/
def SimpleExcludeModel : EntityDecl :=
  ⟨"SimpleExcludeModel", "SimpleExcludeModel", PKType.autoInt,
   ["label", "text"], [], [], some defaultHistory⟩

/-- `SimpleMappingModel` (lines 132-141): `sku`, `vtxt` (verbose name
`Version`) and `not_mapped` fields. -/
def SimpleMappingModel : EntityDecl :=
  ⟨"SimpleMappingModel", "SimpleMappingModel", PKType.autoInt,
   ["sku", "vtxt", "not_mapped"], [("vtxt", "Version")], [],
   some defaultHistory⟩

/-- `SimpleMaskedModel` (lines 144-153): `address` and `text` fields. -/
def SimpleMaskedModel : EntityDecl :=
  ⟨"SimpleMaskedModel", "SimpleMaskedModel", PKType.autoInt,
   ["address", "text"], [], [], some defaultHistory⟩

/-- `AdditionalDataIncludedModel` (lines 156-178): `label`, `text` and a
foreign key `related` to `SimpleModel`; it defines
`get_additional_data`. -/
def AdditionalDataIncludedModel : EntityDecl :=
  ⟨"AdditionalDataIncludedModel", "AdditionalDataIncludedModel", PKType.autoInt,
   ["label", "text", "related"], [], [], some defaultHistory⟩

/-- `DateTimeFieldModel` (lines 181-193). -/
def DateTimeFieldModel : EntityDecl :=
  ⟨"DateTimeFieldModel", "DateTimeFieldModel", PKType.autoInt,
   ["label", "timestamp", "date", "time", "naive_dt"], [], [],
   some defaultHistory⟩

/-- `ChoicesFieldModel` (lines 196-215). -/
def ChoicesFieldModel : EntityDecl :=
  ⟨"ChoicesFieldModel", "ChoicesFieldModel", PKType.autoInt,
   ["status", "multiplechoice"], [], [], some defaultHistory⟩

/-- `CharfieldTextfieldModel` (lines 218-228). -/
def CharfieldTextfieldModel : EntityDecl :=
  ⟨"CharfieldTextfieldModel", "CharfieldTextfieldModel", PKType.autoInt,
   ["longchar", "longtextfield"], [], [], some defaultHistory⟩

/-- `PostgresArrayFieldModel` (lines 231-250). -/
def PostgresArrayFieldModel : EntityDecl :=
  ⟨"PostgresArrayFieldModel", "PostgresArrayFieldModel", PKType.autoInt,
   ["arrayfield"], [], [], some defaultHistory⟩

/-- `NoDeleteHistoryModel` (lines 253-256): history field declared with
`delete_related=False`. -/
def NoDeleteHistoryModel : EntityDecl :=
  ⟨"NoDeleteHistoryModel", "NoDeleteHistoryModel", PKType.autoInt,
   ["integer"], [], [], some ⟨true, false⟩⟩

/-- `JSONModel` (lines 259-262): history field declared with
`delete_related=False`. -/
def JSONModel : EntityDecl :=
  ⟨"JSONModel", "JSONModel", PKType.autoInt,
   ["json"], [], [], some ⟨true, false⟩⟩

/-- `OneToOneFieldModel` (lines 264-272): a nullable one-to-one field to
itself, default history field. -/
def OneToOneFieldModel : EntityDecl :=
  ⟨"OneToOneFieldModel", "OneToOneFieldModel", PKType.autoInt,
   ["related"], [], [], some defaultHistory⟩

/-- The configuration keyword arguments accepted by the engine's
`register` operation, as exercised by the source file:
`include_fields`, `exclude_fields`, `mapping_fields`, `mask_fields` and
`m2m_fields` (spec section 6: include certain fields only, exclude
certain fields, remap field names to display labels, mask certain field
values, restrict tracking to specific many-to-many relations). -/
structure RegistrationConfig where
  include_fields : Option (List String)
  exclude_fields : List String
  mapping_fields : List (String × String)
  mask_fields : List String
  m2m_fields : List String
deriving DecidableEq, Repr

/-- A `register` call with no keyword arguments. -/
def defaultConfig : RegistrationConfig := ⟨none, [], [], [], []⟩

/-- Modelled from the spec: the state of an `AuditlogModelRegistry` of
the external engine (`auditlog.registry`, not under `src/`).  The
constructor flags `create`, `update`, `delete` select which change
events the registry tracks (the source builds `m2m_only_auditlog` with
all three set to `False`); `registrations` holds the registered entity
names with their configuration. -/
structure AuditlogModelRegistry where
  create : Bool
  update : Bool
  delete : Bool
  registrations : List (String × RegistrationConfig)
deriving DecidableEq, Repr

/-- The default registry `auditlog`, which tracks create, update and
delete events and starts with no registrations. -/
def auditlogInitial : AuditlogModelRegistry := ⟨true, true, true, []⟩

/-- `m2m_only_auditlog = AuditlogModelRegistry(create=False,
update=False, delete=False)` (models.py line 9). -/
def m2mOnlyInitial : AuditlogModelRegistry := ⟨false, false, false, []⟩

/-- Look up the registration configuration of an entity name in a
registry. -/
def AuditlogModelRegistry.configOf (reg : AuditlogModelRegistry)
    (name : String) : Option RegistrationConfig :=
  (reg.registrations.find? (fun r => r.1 = name)).map (fun r => r.2)

/-- Modelled from the spec: the engine's `register` operation (not under
`src/`).  Spec section 8 requires that every declared entity with a
history-tracking field be registrable without error regardless of
primary-key type; a history field whose object id is kept integer
indexable (`pk_indexable`, the default) is compatible only with an
auto-increment integer primary key, which is why the source declares
`AuditlogHistoryField(pk_indexable=False)` on the models with character
and UUID keys.  Registration appends the entity's name and its
configuration to the registry. -/
def register (reg : AuditlogModelRegistry) (e : EntityDecl)
    (cfg : RegistrationConfig) : Except String AuditlogModelRegistry :=
  match e.history with
  | some h =>
      if h.pk_indexable && !(e.pk = PKType.autoInt) then
        Except.error (e.name ++ ": integer-indexable history field requires an integer primary key")
      else
        Except.ok ⟨reg.create, reg.update, reg.delete,
                   reg.registrations ++ [(e.name, cfg)]⟩
  | none =>
      Except.ok ⟨reg.create, reg.update, reg.delete,
                 reg.registrations ++ [(e.name, cfg)]⟩

/-- The configuration of `@auditlog.register(include_fields=["label"])`
on `SimpleIncludeModel` (models.py line 109). -/
def simpleIncludeConfig : RegistrationConfig := ⟨some ["label"], [], [], [], []⟩

/-- The configuration of `@auditlog.register(mask_fields=["address"])`
on `SimpleMaskedModel` (models.py line 144). -/
def simpleMaskedConfig : RegistrationConfig := ⟨none, [], [], ["address"], []⟩

/-- The configuration of `auditlog.register(SimpleExcludeModel,
exclude_fields=["text"])` (models.py line 284). -/
def simpleExcludeConfig : RegistrationConfig := ⟨none, ["text"], [], [], []⟩

/-- The configuration of `auditlog.register(SimpleMappingModel,
mapping_fields={"sku": "Product No."})` (models.py line 285). -/
def simpleMappingConfig : RegistrationConfig :=
  ⟨none, [], [("sku", "Product No.")], [], []⟩

/-- The registry `auditlog` after all registrations of the source file,
in source order: the three decorator registrations (`SimpleModel` line
12, `SimpleIncludeModel` line 109, `SimpleMaskedModel` line 144), then
the explicit `auditlog.register` calls of lines 277-292. -/
def auditlogRegistered : Except String AuditlogModelRegistry := do
  let r := auditlogInitial
  let r ← register r SimpleModel defaultConfig
  let r ← register r SimpleIncludeModel simpleIncludeConfig
  let r ← register r SimpleMaskedModel simpleMaskedConfig
  let r ← register r AltPrimaryKeyModel defaultConfig
  let r ← register r UUIDPrimaryKeyModel defaultConfig
  let r ← register r ProxyModel defaultConfig
  let r ← register r RelatedModel defaultConfig
  let r ← register r ManyRelatedModel defaultConfig
  let r ← register r ManyRelatedModelRecursiveThrough defaultConfig
  let r ← register r SimpleExcludeModel simpleExcludeConfig
  let r ← register r SimpleMappingModel simpleMappingConfig
  let r ← register r AdditionalDataIncludedModel defaultConfig
  let r ← register r DateTimeFieldModel defaultConfig
  let r ← register r ChoicesFieldModel defaultConfig
  let r ← register r CharfieldTextfieldModel defaultConfig
  let r ← register r PostgresArrayFieldModel defaultConfig
  let r ← register r NoDeleteHistoryModel defaultConfig
  let r ← register r JSONModel defaultConfig
  return r

/-- The configuration of `m2m_only_auditlog.register(ManyRelatedModel,
m2m_fields={"related"})` (models.py line 283). -/
def m2mRelatedConfig : RegistrationConfig := ⟨none, [], [], [], ["related"]⟩

/-- The registry `m2m_only_auditlog` after its single registration
`m2m_only_auditlog.register(ManyRelatedModel, m2m_fields={"related"})`
(models.py line 283). -/
def m2mOnlyRegistered : Except String AuditlogModelRegistry :=
  register m2mOnlyInitial ManyRelatedModel m2mRelatedConfig

/-- The final state of the default registry (all registrations in the
source succeed, as proved below). -/
def auditlogFinal : AuditlogModelRegistry :=
  match auditlogRegistered with
  | Except.ok r => r
  | Except.error _ => auditlogInitial

/-- The final state of the `m2m_only_auditlog` registry. -/
def m2mOnlyFinal : AuditlogModelRegistry :=
  match m2mOnlyRegistered with
  | Except.ok r => r
  | Except.error _ => m2mOnlyInitial

/-- Modelled from the spec: the set of fields of an entity captured in
history records under a registration configuration (the engine's
diffing logic is not under `src/`).  Spec section 8: with an inclusion
list, exactly the listed fields are tracked and no others; with an
exclusion list, the listed fields are never tracked while all others
are. -/
def trackedFields (cfg : RegistrationConfig) (fields : List String) :
    List String :=
  match cfg.include_fields with
  | some inc => fields.filter (fun f => f ∈ inc)
  | none => fields.filter (fun f => f ∉ cfg.exclude_fields)

/-- Modelled from the spec: the redaction marker that replaces a masked
field's captured value (glossary: masking controls how captured
attributes are redacted; the engine's marker is not under `src/`). -/
def redactionMarker : String := "*******"

/-- Modelled from the spec: the captured form of one field value under a
configuration.  Spec section 8: masking replaces a tracked field's
captured value with a redaction marker rather than omitting the
field. -/
def captureValue (cfg : RegistrationConfig) (f : String) (v : String) :
    String :=
  if f ∈ cfg.mask_fields then redactionMarker else v

/-- Modelled from the spec: the changes dictionary of a history record,
mapping each tracked field whose value differs between the old and new
instance state to its captured old and new values (the engine's diffing
logic is not under `src/`). -/
def changes (cfg : RegistrationConfig) (fields : List String)
    (old new : String → String) : List (String × String × String) :=
  (trackedFields cfg fields).filterMap (fun f =>
    if old f = new f then none
    else some (f, captureValue cfg f (old f), captureValue cfg f (new f)))

/-- First value bound to a key in an association list of strings. -/
def lookupStr : List (String × String) → String → Option String
  | [], _ => none
  | (k, v) :: rest, f => if k = f then some v else lookupStr rest f

/-- Modelled from the spec: the label under which a field is displayed
in history records.  Spec section 8: field remapping changes only the
displayed label; without a mapping entry the field's declared verbose
name, and failing that the field name itself, is used. -/
def displayLabel (cfg : RegistrationConfig) (e : EntityDecl)
    (f : String) : String :=
  match lookupStr cfg.mapping_fields f with
  | some label => label
  | none =>
      match lookupStr e.verboseNames f with
      | some verbose => verbose
      | none => f

/-- A JSON-like value, as returned by the `get_additional_data` hooks of
the source file (an object id, a text value, or `None`). -/
inductive JValue where
  | null
  | nat (n : Nat)
  | str (s : String)
deriving DecidableEq, Repr

/-- The state of one entity instance as the engine observes it: its
primary key, the ids of the objects reachable through its `related`
many-to-many relation in iteration order (used by
`ManyRelatedModel.get_additional_data`), and the id and `text` of the
object behind its `related` foreign key (used by
`AdditionalDataIncludedModel.get_additional_data`). -/
structure Instance where
  pk : String
  relatedIds : List Nat
  relatedFkId : Nat
  relatedFkText : String

/-- `ManyRelatedModel.get_additional_data` (models.py lines 96-98):
`related = self.related.first()` followed by
`return {"related_model_id": related.id if related else None}`. -/
def ManyRelatedModel.get_additional_data (relatedIds : List Nat) :
    List (String × JValue) :=
  match relatedIds.head? with
  | some i => [("related_model_id", JValue.nat i)]
  | none => [("related_model_id", JValue.null)]

/-- `AdditionalDataIncludedModel.get_additional_data` (models.py lines
168-178): returns the id and text of the instance's `related` foreign
key object. -/
def AdditionalDataIncludedModel.get_additional_data (relatedId : Nat)
    (relatedText : String) : List (String × JValue) :=
  [("related_model_id", JValue.nat relatedId),
   ("related_model_text", JValue.str relatedText)]

/-- Modelled from the spec: the per-entity extension hook as the engine
sees it (spec section 6: an optional entity-level extension point
returning a mapping of supplementary key/value data).  Exactly the two
entities `ManyRelatedModel` and `AdditionalDataIncludedModel` define
`get_additional_data` in the source file; for every other entity the
hook is absent. -/
def entityAdditionalData (e : EntityDecl) (inst : Instance) :
    Option (List (String × JValue)) :=
  if e.name = "ManyRelatedModel" then
    some (ManyRelatedModel.get_additional_data inst.relatedIds)
  else if e.name = "AdditionalDataIncludedModel" then
    some (AdditionalDataIncludedModel.get_additional_data
            inst.relatedFkId inst.relatedFkText)
  else none

/-- The change events the engine records. -/
inductive Action where
  | create
  | update
  | delete
  | m2m
deriving DecidableEq, Repr

/-- Modelled from the spec: a history record (glossary: a persisted
snapshot of a change event for a tracked entity instance, produced by
the external audit engine).  It names the concrete entity, the
instance's primary key, the action, the captured changes, and the
mapping supplied by the entity's extension hook when present. -/
structure LogEntry where
  model : String
  objectPk : String
  action : Action
  changeList : List (String × String × String)
  additional_data : Option (List (String × JValue))
deriving DecidableEq, Repr

/-- Modelled from the spec: creation of one history record for an
entity instance under a registration configuration.  The record is
keyed by the concrete entity (for a proxy model, its underlying
entity), and the mapping returned by the entity's extension hook, when
present, is attached at creation time (spec sections 3 and 6). -/
def mkLogEntry (e : EntityDecl) (cfg : RegistrationConfig)
    (inst : Instance) (act : Action) (old new : String → String) :
    LogEntry :=
  ⟨e.concrete, inst.pk, act, changes cfg e.fields old new,
   entityAdditionalData e inst⟩

/-- Modelled from the spec: whether a registry tracks a given change
event, per its constructor flags. -/
def actionAllowed (reg : AuditlogModelRegistry) (act : Action) : Bool :=
  match act with
  | Action.create => reg.create
  | Action.update => reg.update
  | Action.delete => reg.delete
  | Action.m2m => true

/-- Modelled from the spec: the engine's reaction, through one registry,
to a create, update or delete event on an entity instance: when the
entity is registered with that registry and the registry tracks the
event, a history record is appended to the store; otherwise the store
is unchanged. -/
def logAction (reg : AuditlogModelRegistry) (e : EntityDecl)
    (inst : Instance) (act : Action) (old new : String → String)
    (store : List LogEntry) : List LogEntry :=
  match reg.configOf e.name with
  | none => store
  | some cfg =>
      if actionAllowed reg act then
        store ++ [mkLogEntry e cfg inst act old new]
      else store

/-- Modelled from the spec: the engine's reaction, through one registry,
to a change of a many-to-many relation field of an entity instance: a
history record is produced only when the entity is registered with that
registry and the changed relation is among the registration's
`m2m_fields`. -/
def logM2M (reg : AuditlogModelRegistry) (e : EntityDecl)
    (inst : Instance) (field : String) (store : List LogEntry) :
    List LogEntry :=
  match reg.configOf e.name with
  | none => store
  | some cfg =>
      if field ∈ cfg.m2m_fields then
        store ++ [⟨e.concrete, inst.pk, Action.m2m, [(field, "", "")],
                   entityAdditionalData e inst⟩]
      else store

/-- The history records of one instance in a store: those whose model
name and primary key match. -/
def historyOf (store : List LogEntry) (model pk : String) :
    List LogEntry :=
  store.filter (fun le => le.model = model ∧ le.objectPk = pk)

/-- Modelled from the spec: deletion of an entity instance.  The delete
event is logged as any other (when registered and tracked), and then
the instance's own history records are cascade-deleted exactly when the
entity's history field was declared with `delete_related=True` (spec
section 3: deletion-cascade suppression for history records). -/
def deleteInstance (reg : AuditlogModelRegistry) (e : EntityDecl)
    (inst : Instance) (old : String → String) (store : List LogEntry) :
    List LogEntry :=
  let logged := logAction reg e inst Action.delete old (fun _ => "") store
  match e.history with
  | none => logged
  | some h =>
      if h.delete_related then
        logged.filter (fun le => ¬(le.model = e.concrete ∧ le.objectPk = inst.pk))
      else logged

/-- A store from which every record of the instance `(m, p)` has been
filtered out holds no history for that instance. -/
lemma historyOf_purged (store : List LogEntry) (m p : String) :
    historyOf (store.filter (fun le => ¬(le.model = m ∧ le.objectPk = p)))
      m p = [] := by
  induction store with
  | nil => rfl
  | cons a l ih =>
    by_cases h : a.model = m ∧ a.objectPk = p <;>
      simp only [historyOf, List.filter_cons] at * <;>
      simp [h, ih]

/-- C1: for the inclusion registration of `SimpleIncludeModel`
(`include_fields=["label"]`) exactly the listed field `label` is tracked
and no other, and for the exclusion registration of `SimpleExcludeModel`
(`exclude_fields=["text"]`) the listed field `text` is never tracked
while every other field is; both configurations are those recorded in
the final registry. -/
theorem simpleInclude_simpleExclude_tracked_fields :
    trackedFields simpleIncludeConfig SimpleIncludeModel.fields = ["label"] ∧
    trackedFields simpleExcludeConfig SimpleExcludeModel.fields = ["label"] ∧
    (∀ f, f ∈ trackedFields simpleIncludeConfig SimpleIncludeModel.fields ↔
      f = "label") ∧
    (∀ f, f ∈ trackedFields simpleExcludeConfig SimpleExcludeModel.fields ↔
      (f ∈ SimpleExcludeModel.fields ∧ f ≠ "text")) ∧
    auditlogFinal.configOf "SimpleIncludeModel" = some simpleIncludeConfig ∧
    auditlogFinal.configOf "SimpleExcludeModel" = some simpleExcludeConfig := by
  refine ⟨by decide, by decide, ?_, ?_, by decide, by decide⟩
  · intro f
    have h : trackedFields simpleIncludeConfig SimpleIncludeModel.fields =
        ["label"] := by decide
    rw [h, List.mem_singleton]
  · intro f
    have h : trackedFields simpleExcludeConfig SimpleExcludeModel.fields =
        ["label"] := by decide
    rw [h, List.mem_singleton]
    constructor
    · rintro rfl
      exact ⟨by decide, by decide⟩
    · rintro ⟨hf, hne⟩
      simp [SimpleExcludeModel] at hf
      rcases hf with h1 | h2
      · exact h1
      · exact absurd h2 hne

/-- C2: under the `mask_fields=["address"]` registration of
`SimpleMaskedModel`, the changes captured for any pair of old and new
states contain the `address` field (whenever its value changed) with
both captured values replaced by the redaction marker — the field is
never omitted — while the unmasked `text` field keeps its raw values;
the configuration is the one recorded in the final registry. -/
theorem simpleMasked_changes_redacted :
    (∀ old new : String → String,
      changes simpleMaskedConfig SimpleMaskedModel.fields old new =
        (if old "address" = new "address" then []
         else [("address", redactionMarker, redactionMarker)]) ++
        (if old "text" = new "text" then []
         else [("text", old "text", new "text")])) ∧
    auditlogFinal.configOf "SimpleMaskedModel" = some simpleMaskedConfig := by
  refine ⟨?_, by decide⟩
  intro old new
  by_cases h1 : old "address" = new "address" <;>
    by_cases h2 : old "text" = new "text" <;>
    simp [changes, trackedFields, simpleMaskedConfig, SimpleMaskedModel,
      captureValue, h1, h2]

/-- C3: for the two entities that define `get_additional_data`
(`ManyRelatedModel` and `AdditionalDataIncludedModel`), every history
record produced through the final registry is appended with the mapping
returned by the hook attached as its `additional_data` at creation
time. -/
theorem additional_data_attached_on_creation :
    (∀ (inst : Instance) (act : Action) (old new : String → String)
        (store : List LogEntry),
      logAction auditlogFinal ManyRelatedModel inst act old new store =
        store ++ [mkLogEntry ManyRelatedModel defaultConfig inst act old new] ∧
      (mkLogEntry ManyRelatedModel defaultConfig inst act old new).additional_data =
        some (ManyRelatedModel.get_additional_data inst.relatedIds)) ∧
    (∀ (inst : Instance) (act : Action) (old new : String → String)
        (store : List LogEntry),
      logAction auditlogFinal AdditionalDataIncludedModel inst act old new store =
        store ++ [mkLogEntry AdditionalDataIncludedModel defaultConfig inst act old new] ∧
      (mkLogEntry AdditionalDataIncludedModel defaultConfig inst act old new).additional_data =
        some (AdditionalDataIncludedModel.get_additional_data
                inst.relatedFkId inst.relatedFkText)) := by
  constructor <;> intro inst act old new store <;>
    exact ⟨by cases act <;> rfl, rfl⟩

/-- C4: under the `mapping_fields={"sku": "Product No."}` registration
of `SimpleMappingModel`, the captured changes are identical to those
without any mapping (so the remapped field's captured value is the
underlying field's value), `sku` is displayed under the label
`Product No.`, and the display of every other field (`vtxt`,
`not_mapped`) is unaffected by the mapping configuration; the
configuration is the one recorded in the final registry. -/
theorem simpleMapping_preserves_values :
    (∀ old new : String → String,
      changes simpleMappingConfig SimpleMappingModel.fields old new =
        changes defaultConfig SimpleMappingModel.fields old new) ∧
    (∀ old new : String → String, old "sku" ≠ new "sku" →
      ("sku", old "sku", new "sku") ∈
        changes simpleMappingConfig SimpleMappingModel.fields old new) ∧
    displayLabel simpleMappingConfig SimpleMappingModel "sku" = "Product No." ∧
    (∀ f, f ≠ "sku" →
      displayLabel simpleMappingConfig SimpleMappingModel f =
        displayLabel defaultConfig SimpleMappingModel f) ∧
    auditlogFinal.configOf "SimpleMappingModel" = some simpleMappingConfig := by
  refine ⟨?_, ?_, rfl, ?_, by decide⟩
  · intro old new
    rfl
  · intro old new h
    simp [changes, trackedFields, simpleMappingConfig, SimpleMappingModel,
      captureValue, h]
  · intro f hf
    simp [displayLabel, simpleMappingConfig, defaultConfig, lookupStr,
      Ne.symm hf]

/-- Witness for C4: a concrete changed `sku` value is captured
unchanged, and the non-mapped field `vtxt` displays exactly as without
the mapping. -/
theorem simpleMapping_preserves_values_witness :
    ("sku", "a", "b") ∈
      changes simpleMappingConfig SimpleMappingModel.fields
        (fun _ => "a") (fun _ => "b") ∧
    displayLabel simpleMappingConfig SimpleMappingModel "vtxt" =
      displayLabel defaultConfig SimpleMappingModel "vtxt" :=
  ⟨simpleMapping_preserves_values.2.1 (fun _ => "a") (fun _ => "b") (by decide),
   simpleMapping_preserves_values.2.2.2.1 "vtxt" (by decide)⟩

/-- C5: registration succeeds without error for each primary-key
variant — `SimpleModel` (auto-increment integer key),
`AltPrimaryKeyModel` (explicit string key) and `UUIDPrimaryKeyModel`
(UUID key) — and the complete registration sequences of both registries
in the source succeed. -/
theorem register_succeeds_all_pk_variants :
    (register auditlogInitial SimpleModel defaultConfig).isOk = true ∧
    (register auditlogInitial AltPrimaryKeyModel defaultConfig).isOk = true ∧
    (register auditlogInitial UUIDPrimaryKeyModel defaultConfig).isOk = true ∧
    auditlogRegistered.isOk = true ∧ m2mOnlyRegistered.isOk = true := by
  decide

/-- C6: deleting an instance of an entity whose history field was
declared with `delete_related=False` (`NoDeleteHistoryModel` and
`JSONModel`) leaves the whole existing history store in place verbatim —
no record is removed or altered — and only appends the delete event's
own record. -/
theorem delete_related_false_preserves_history :
    (∀ (inst : Instance) (old : String → String) (store : List LogEntry),
      deleteInstance auditlogFinal NoDeleteHistoryModel inst old store =
        store ++ [mkLogEntry NoDeleteHistoryModel defaultConfig inst
                    Action.delete old (fun _ => "")]) ∧
    (∀ (inst : Instance) (old : String → String) (store : List LogEntry),
      deleteInstance auditlogFinal JSONModel inst old store =
        store ++ [mkLogEntry JSONModel defaultConfig inst
                    Action.delete old (fun _ => "")]) := by
  constructor <;> intro inst old store <;> rfl

/-- C7: through the registry built with `create=False, update=False,
delete=False`, no create, update or delete event ever produces a
history record for any entity, while a change of the listed
many-to-many relation `related` of `ManyRelatedModel` is tracked and a
change of its other relation `recursive` is not. -/
theorem m2m_only_registry_tracks_only_related :
    (∀ (e : EntityDecl) (inst : Instance) (old new : String → String)
        (store : List LogEntry),
      logAction m2mOnlyFinal e inst Action.create old new store = store ∧
      logAction m2mOnlyFinal e inst Action.update old new store = store ∧
      logAction m2mOnlyFinal e inst Action.delete old new store = store) ∧
    (∀ (inst : Instance) (store : List LogEntry),
      logM2M m2mOnlyFinal ManyRelatedModel inst "related" store =
        store ++ [⟨"ManyRelatedModel", inst.pk, Action.m2m, [("related", "", "")],
                   some (ManyRelatedModel.get_additional_data inst.relatedIds)⟩]) ∧
    (∀ (inst : Instance) (store : List LogEntry),
      logM2M m2mOnlyFinal ManyRelatedModel inst "recursive" store = store) := by
  refine ⟨?_, ?_, ?_⟩
  · intro e inst old new store
    have hc : m2mOnlyFinal.create = false := by decide
    have hu : m2mOnlyFinal.update = false := by decide
    have hd : m2mOnlyFinal.delete = false := by decide
    refine ⟨?_, ?_, ?_⟩ <;>
      · unfold logAction
        cases m2mOnlyFinal.configOf e.name <;>
          simp [actionAllowed, hc, hu, hd]
  · intro inst store
    rfl
  · intro inst store
    rfl

/-- C8: `ManyRelatedModel.get_additional_data` is total at its public
interface: for every list of related ids it returns the singleton
mapping under the key `related_model_id`, holding the first related
object's id when one exists and the null value when the relation is
empty — the guarded access never fails. -/
theorem manyRelated_get_additional_data_total :
    (∀ ids, ManyRelatedModel.get_additional_data ids =
      [("related_model_id",
        match ids.head? with
        | some i => JValue.nat i
        | none => JValue.null)]) ∧
    ManyRelatedModel.get_additional_data [] =
      [("related_model_id", JValue.null)] := by
  refine ⟨?_, rfl⟩
  intro ids
  cases ids <;> rfl

/-- C9: `ProxyModel` is a proxy of `SimpleModel` (same concrete entity
and same fields), both are registered, and every create, update or
delete performed through `ProxyModel` yields exactly the history-store
effect of the same operation performed through `SimpleModel` on the
same underlying record. -/
theorem proxyModel_observationally_equivalent :
    (∀ (inst : Instance) (act : Action) (old new : String → String)
        (store : List LogEntry),
      logAction auditlogFinal ProxyModel inst act old new store =
        logAction auditlogFinal SimpleModel inst act old new store) ∧
    (∀ (inst : Instance) (old : String → String) (store : List LogEntry),
      deleteInstance auditlogFinal ProxyModel inst old store =
        deleteInstance auditlogFinal SimpleModel inst old store) ∧
    ProxyModel.concrete = SimpleModel.name ∧
    ProxyModel.fields = SimpleModel.fields := by
  refine ⟨?_, ?_, rfl, rfl⟩
  · intro inst act old new store
    cases act <;> rfl
  · intro inst old store
    rfl

/-- C10: `ManyRelatedOtherModel` and `OneToOneFieldModel` are registered
with neither registry, so no create, update, delete or many-to-many
event on their instances ever produces a history record, and after any
deletion an instance's own history is empty. -/
theorem unregistered_models_produce_no_history :
    auditlogFinal.configOf "ManyRelatedOtherModel" = none ∧
    auditlogFinal.configOf "OneToOneFieldModel" = none ∧
    m2mOnlyFinal.configOf "ManyRelatedOtherModel" = none ∧
    m2mOnlyFinal.configOf "OneToOneFieldModel" = none ∧
    (∀ (inst : Instance) (act : Action) (old new : String → String)
        (store : List LogEntry),
      logAction auditlogFinal ManyRelatedOtherModel inst act old new store = store ∧
      logAction m2mOnlyFinal ManyRelatedOtherModel inst act old new store = store ∧
      logAction auditlogFinal OneToOneFieldModel inst act old new store = store ∧
      logAction m2mOnlyFinal OneToOneFieldModel inst act old new store = store) ∧
    (∀ (inst : Instance) (f : String) (store : List LogEntry),
      logM2M auditlogFinal ManyRelatedOtherModel inst f store = store ∧
      logM2M auditlogFinal OneToOneFieldModel inst f store = store) ∧
    (∀ (inst : Instance) (old : String → String) (store : List LogEntry),
      historyOf (deleteInstance auditlogFinal ManyRelatedOtherModel inst old store)
        "ManyRelatedOtherModel" inst.pk = [] ∧
      historyOf (deleteInstance auditlogFinal OneToOneFieldModel inst old store)
        "OneToOneFieldModel" inst.pk = []) := by
  refine ⟨by decide, by decide, by decide, by decide, ?_, ?_, ?_⟩
  · intro inst act old new store
    exact ⟨rfl, rfl, rfl, rfl⟩
  · intro inst f store
    exact ⟨rfl, rfl⟩
  · intro inst old store
    exact ⟨historyOf_purged store "ManyRelatedOtherModel" inst.pk,
           historyOf_purged store "OneToOneFieldModel" inst.pk⟩

end AuditlogSpec
